import Mathlib

/-!
Verification development for the CORD-19 RAG chatbot (`app.py`).

The Python program wires external services (OpenAI embeddings, a Chroma
vector store, a chat-completion client) behind a Streamlit chat UI.  This
file gives a shallow embedding of the program logic:

* external services are modelled as explicit function-valued fields of an
  environment record, returning `Except ErrMsg _` so that a raised Python
  exception becomes an `Except.error`;
* Python strings are Lean `String`s (`s[:200]` is `String.take s 200`,
  character-wise, matching Python code-point slicing);
* Streamlit session state (`st.session_state.messages`, `.rag_chain`,
  `.retriever`) is an explicit record; the chat-input handler becomes a
  pure state-transition function on the message log;
* the `@st.cache_resource` decorator is modelled as an explicit
  memoisation cell (its documented semantics: run the body on first call,
  return the stored value afterwards).
-/

/-- Error messages carried by Python exceptions (`str(e)`). -/
abbrev ErrMsg := String

/-- Metadata of a retrieved chunk (`doc.metadata`): a mapping in which the
`title` and `publish_time` keys may be absent (`metadata.get` with default,
app.py lines 282-283). -/
structure Metadata where
  title : Option String
  publish_time : Option String

/-- A retrieved document chunk (langchain `Document`): `page_content` plus
metadata. -/
structure Document where
  page_content : String
  metadata : Metadata

/-- The Chroma vector store, modelled as its one used capability:
similarity search ranking all stored chunks against a query, most similar
first.  Embedding the query happens inside this call, so an embedding or
index failure surfaces as `Except.error`. -/
structure VectorStore where
  rank : String → Except ErrMsg (List Document)

/-- `vectorstore.as_retriever(search_kwargs={"k": 5})` (app.py line 154):
the store together with the configured result count `k`. -/
structure Retriever where
  vs : VectorStore
  k : Nat

/-- `retriever.get_relevant_documents(q)`: the top `k` chunks of the
similarity ranking. -/
def Retriever.get_relevant_documents (r : Retriever) (q : String) :
    Except ErrMsg (List Document) :=
  (r.vs.rank q).map (fun docs => docs.take r.k)

/-- `ChatOpenAI(model_name="gpt-3.5-turbo", temperature=0)` (app.py line
157): the configured generation client; `complete` is the remote
chat-completion call. -/
structure ChatModel where
  model_name : String
  temperature : Nat
  complete : String → Except ErrMsg String

/-- `format_docs` (app.py lines 171-172): join the chunks\x27 contents with
a blank-line separator. -/
def format_docs (docs : List Document) : String :=
  String.intercalate "\n\n" (docs.map Document.page_content)

/-- The prompt template of app.py lines 160-166 with `context` and
`question` substituted (`ChatPromptTemplate.from_template(template)`). -/
def ragPrompt (context question : String) : String :=
  "You are a helpful assistant with access to COVID-19 medical research.\n\nAnswer the question using the following context from recent research papers:\n"
    ++ context
    ++ "\n\nQuestion: " ++ question
    ++ "\nAnswer: Please provide a comprehensive answer based on the research context. If the context doesn\x27t contain relevant information, please say so clearly."

/-- The composed RAG chain of app.py lines 175-180: a retriever feeding
`format_docs` into the prompt, piped into the chat model. -/
structure RagChain where
  retriever : Retriever
  llm : ChatModel

/-- `rag_chain.invoke(q)`: retrieve, format the context, assemble the
prompt, call the generation client (`StrOutputParser` is the identity on
the completion text). -/
def RagChain.invoke (c : RagChain) (q : String) : Except ErrMsg String := do
  let docs ← c.retriever.get_relevant_documents q
  c.llm.complete (ragPrompt (format_docs docs) q)

/-- The context string handed to generation inside `rag_chain.invoke`
(`{"context": retriever | format_docs, ...}`, app.py line 176). -/
def generationContext (c : RagChain) (q : String) : Except ErrMsg String :=
  (c.retriever.get_relevant_documents q).map format_docs

/-- `doc.page_content[:200] + "..." if len(doc.page_content) > 200 else
doc.page_content` (app.py line 284). -/
def content_preview (s : String) : String :=
  if s.length > 200 then s.take 200 ++ "..." else s

/-- One displayed source summary (app.py lines 282-285):
`f"**{title}** ({publish_time})\n{content_preview}"` with the metadata
defaults of `metadata.get`. -/
def sourceSummary (d : Document) : String :=
  "**" ++ d.metadata.title.getD "Unknown Title"
    ++ "** (" ++ d.metadata.publish_time.getD "Unknown Date" ++ ")\n"
    ++ content_preview d.page_content

/-- The body of the per-question `try` block (app.py lines 275-285): invoke
the chain, re-run the retrieval for display, build the summaries.  Any
exception in either step aborts the block (`Except.error`). -/
def answer (c : RagChain) (r : Retriever) (q : String) :
    Except ErrMsg (String × List String) := do
  let response ← c.invoke q
  let source_docs ← r.get_relevant_documents q
  pure (response, source_docs.map sourceSummary)

/-- Chat roles of the session log entries. -/
inductive Role where
  | user
  | assistant
deriving DecidableEq, Repr

/-- One entry of `st.session_state.messages`: the error-turn append at
app.py line 305 carries no `"sources"` key, hence the `Option`. -/
structure Message where
  role : Role
  content : String
  sources : Option (List String)
deriving DecidableEq, Repr

/-- The chat-input handler (app.py lines 265-306) as a transition on the
message log: append the user turn, run the `try` block, append either the
successful assistant turn (with sources) or the error turn (no sources). -/
def handleQuestion (c : RagChain) (r : Retriever) (msgs : List Message)
    (q : String) : List Message :=
  let msgs1 := msgs ++ [{ role := Role.user, content := q, sources := none }]
  match answer c r q with
  | Except.ok (response, sources) =>
      msgs1 ++ [{ role := Role.assistant, content := response,
                  sources := some sources }]
  | Except.error e =>
      msgs1 ++ [{ role := Role.assistant,
                  content := "Sorry, I encountered an error: " ++ e,
                  sources := none }]

/-- The opaque embedding client built by `OpenAIEmbeddings()` (app.py
line 145). -/
inductive Embeddings where
  | client
deriving DecidableEq

/-- The two local directories the provisioning code touches: `none` means
the directory is absent, `some n` that it exists and holds `n` files
(`len(list(path.glob("**/*")))`). -/
structure FS where
  chroma : Option Nat
  vectorstore : Option Nat
deriving DecidableEq, Repr

/-- `path.exists() and len(list(path.glob("**/*"))) > 0` (app.py line 82). -/
def dirNonEmpty : Option Nat → Bool
  | some n => decide (0 < n)
  | none => false

/-- The placeholder default of `HF_DATASET_ID` (app.py line 16). -/
def PLACEHOLDER_DATASET_ID : String := "YOUR_USERNAME/covid19-cord19-vectorstore"

/-- Environment of one process run: the filesystem at start, the configured
dataset id, and the outcome of each external call.  `snapshot` is
`snapshot_download(...)` (app.py lines 102-107): on success it yields the
state of the local `vectorstore` directory afterwards; a raised exception is
`Except.error`.  `chroma` is the `Chroma(...)` constructor, `embeddings` is
`OpenAIEmbeddings()`, `chatOpenAI` is `ChatOpenAI(...)` yielding the
completion call. -/
structure InitEnv where
  fs : FS
  hf_dataset_id : String
  snapshot : Except ErrMsg (Option Nat)
  embeddings : Except ErrMsg Embeddings
  chroma : Embeddings → Except ErrMsg VectorStore
  chatOpenAI : Except ErrMsg (String → Except ErrMsg String)

/-- Result of `download_vectorstore_from_hf`: the filesystem afterwards,
the returned boolean, and the `st.error` messages it displayed. -/
structure DownloadResult where
  fs : FS
  ok : Bool
  errors : List String
deriving DecidableEq, Repr

/-- `download_vectorstore_from_hf` (app.py lines 78-134): return `True` if a
non-empty `chroma_cord19` directory exists; fail on the placeholder dataset
id; otherwise call `snapshot_download` and, if a `vectorstore` directory
exists afterwards, move it over `chroma_cord19`; any exception is caught and
turned into `False` with an `st.error` display. -/
def download_vectorstore_from_hf (env : InitEnv) (fs : FS) : DownloadResult :=
  if dirNonEmpty fs.chroma then
    { fs := fs, ok := true, errors := [] }
  else if env.hf_dataset_id = PLACEHOLDER_DATASET_ID then
    { fs := fs, ok := false,
      errors := ["❌ Please update HF_DATASET_ID in app.py with your actual Hugging Face dataset ID"] }
  else
    match env.snapshot with
    | Except.error e =>
        { fs := fs, ok := false,
          errors := ["❌ Error downloading vectorstore: " ++ e] }
    | Except.ok vs =>
        let fs1 : FS := { fs with vectorstore := vs }
        match fs1.vectorstore with
        | some _ =>
            { fs := { chroma := fs1.vectorstore, vectorstore := none },
              ok := true, errors := [] }
        | none => { fs := fs1, ok := true, errors := [] }

/-- `initialize_rag_chain` (app.py lines 136-186), the body without the
cache decorator: provision the index, build embeddings, store, retriever
(k = 5), chat model and the composed chain; `return None, None` when
provisioning reports failure or any constructor raises, displaying a
human-readable `st.error` in every failure case.  The second component
collects the `st.error` messages displayed during the call. -/
def initialize_rag_chain (env : InitEnv) :
    (Option RagChain × Option Retriever) × List String :=
  let d := download_vectorstore_from_hf env env.fs
  if !d.ok then ((none, none), d.errors)
  else
    match env.embeddings with
    | Except.error e =>
        ((none, none), d.errors ++ ["Error initializing RAG chain: " ++ e])
    | Except.ok emb =>
      match env.chroma emb with
      | Except.error e =>
          ((none, none), d.errors ++ ["Error initializing RAG chain: " ++ e])
      | Except.ok vectorstore =>
        let retriever : Retriever := { vs := vectorstore, k := 5 }
        match env.chatOpenAI with
        | Except.error e =>
            ((none, none), d.errors ++ ["Error initializing RAG chain: " ++ e])
        | Except.ok complete =>
          let llm : ChatModel :=
            { model_name := "gpt-3.5-turbo", temperature := 0,
              complete := complete }
          let rag_chain : RagChain := { retriever := retriever, llm := llm }
          ((some rag_chain, some retriever), d.errors)

/-- Modelled from the documented semantics of the `@st.cache_resource`
decorator on `initialize_rag_chain` (app.py line 136, decorator code is the
Streamlit library, not this repository): the first call runs the body and
stores its return value; later calls in the same process return the stored
value without running the body.  `runs` counts body executions. -/
structure ResourceCache where
  stored : Option ((Option RagChain × Option Retriever) × List String)
  runs : Nat

/-- A fresh process: nothing cached, no body execution yet. -/
def freshCache : ResourceCache := { stored := none, runs := 0 }

/-- Calling the decorated `initialize_rag_chain()`: consult the cache, run
and fill it on a miss. -/
def cachedInit (env : InitEnv) (s : ResourceCache) :
    ResourceCache × ((Option RagChain × Option Retriever) × List String) :=
  match s.stored with
  | some r => (s, r)
  | none =>
      let r := initialize_rag_chain env
      ({ stored := some r, runs := s.runs + 1 }, r)

/-- `st.session_state` as used by `main`: the message log and the cached
pipeline handle (app.py lines 199-203). -/
structure SessionState where
  messages : List Message
  rag_chain : Option RagChain
  retriever : Option Retriever

/-- The Clear Chat History button handler (app.py lines 236-238):
`st.session_state.messages = []` and nothing else. -/
def clearChatHistory (s : SessionState) : SessionState :=
  { s with messages := [] }

/-- The chat rendering loop (app.py lines 253-262) displays the stored
turns in insertion order. -/
def renderSession (s : SessionState) : List Message :=
  s.messages

/-- The guarded initialisation step of `main` (app.py lines 241-250): only
when `st.session_state.rag_chain is None` call the (cached)
`initialize_rag_chain` and store the handle on success. -/
def ensureRagChain (env : InitEnv) (cache : ResourceCache)
    (s : SessionState) : ResourceCache × SessionState :=
  match s.rag_chain with
  | some _ => (cache, s)
  | none =>
      let (cache1, res) := cachedInit env cache
      match res.1 with
      | (some c, r) =>
          (cache1, { s with rag_chain := some c, retriever := r })
      | (none, _) => (cache1, s)

/-- Concrete chunk used by several concrete instantiations below. -/
def docW : Document :=
  { page_content := "Fever is a common symptom.",
    metadata := { title := some "Symptom Study",
                  publish_time := some "2021-03" } }

/-- Stubbed vector store holding exactly `docW`. -/
def vsW : VectorStore := { rank := fun _ => Except.ok [docW] }

/-- An environment in which every construction step succeeds. -/
def envW : InitEnv :=
  { fs := { chroma := some 3, vectorstore := none },
    hf_dataset_id := "someuser/covid19-cord19-vectorstore",
    snapshot := Except.ok none,
    embeddings := Except.ok Embeddings.client,
    chroma := fun _ => Except.ok vsW,
    chatOpenAI := Except.ok (fun _ => Except.ok "Fever is common.") }

/-- The retriever `initialize_rag_chain` builds in `envW`. -/
def retrieverW : Retriever := { vs := vsW, k := 5 }

/-- The chain `initialize_rag_chain` builds in `envW`. -/
def chainW : RagChain :=
  { retriever := retrieverW,
    llm := { model_name := "gpt-3.5-turbo", temperature := 0,
             complete := fun _ => Except.ok "Fever is common." } }

/-- Is this the user role? -/
def Role.isUser : Role → Bool
  | Role.user => true
  | Role.assistant => false

/-- Is this the assistant role? -/
def Role.isAssistant : Role → Bool
  | Role.assistant => true
  | Role.user => false

/-- The two turns that one submitted question appends to the log: the
verbatim user turn, then the assistant turn of the success or error
branch. -/
def exchangePair (c : RagChain) (r : Retriever) (q : String) : List Message :=
  match answer c r q with
  | Except.ok (response, sources) =>
      [{ role := Role.user, content := q, sources := none },
       { role := Role.assistant, content := response,
         sources := some sources }]
  | Except.error e =>
      [{ role := Role.user, content := q, sources := none },
       { role := Role.assistant,
         content := "Sorry, I encountered an error: " ++ e,
         sources := none }]

/-- The log alternation invariant: a sequence of (User, Assistant) pairs. -/
def userAssistantPairs : List Message → Bool
  | [] => true
  | u :: a :: rest =>
      u.role.isUser && a.role.isAssistant && userAssistantPairs rest
  | [_] => false

/-- Did this external call raise an exception? -/
def isErr {α : Type} : Except ErrMsg α → Bool
  | Except.error _ => true
  | Except.ok _ => false

/-- An environment whose dataset id is still the placeholder and whose index
directory is absent: provisioning must fail. -/
def envFail : InitEnv :=
  { fs := { chroma := none, vectorstore := none },
    hf_dataset_id := PLACEHOLDER_DATASET_ID,
    snapshot := Except.ok none,
    embeddings := Except.ok Embeddings.client,
    chroma := fun _ => Except.ok { rank := fun _ => Except.ok [] },
    chatOpenAI := Except.ok (fun _ => Except.ok "") }

/-- An environment in which `snapshot_download` completes without raising
but materialises no `vectorstore` directory (a real dataset id whose remote
repository holds no `vectorstore/*` files), and no local index exists. -/
def envDL : InitEnv :=
  { fs := { chroma := none, vectorstore := none },
    hf_dataset_id := "someuser/covid19-cord19-vectorstore",
    snapshot := Except.ok none,
    embeddings := Except.ok Embeddings.client,
    chroma := fun _ => Except.ok { rank := fun _ => Except.ok [] },
    chatOpenAI := Except.ok (fun _ => Except.ok "") }

/-- A session with a constructed pipeline handle and some history. -/
def sessionW : SessionState :=
  { messages := [{ role := Role.user, content := "hi", sources := none }],
    rag_chain := some chainW,
    retriever := some retrieverW }

theorem string_length_take (s : String) (n : Nat) :
    (s.take n).length = min n s.length := by
  rw [String.take_eq]
  cases s with
  | mk data => simp [String.length]

theorem answer_ok_inv (c : RagChain) (r : Retriever) (q resp : String)
    (sources : List String) (h : answer c r q = Except.ok (resp, sources)) :
    ∃ docs, r.get_relevant_documents q = Except.ok docs ∧
      sources = docs.map sourceSummary ∧ c.invoke q = Except.ok resp := by
  unfold answer at h
  cases hi : c.invoke q with
  | error e => rw [hi] at h; simp [Bind.bind, Except.bind] at h
  | ok a =>
    rw [hi] at h
    cases hd : r.get_relevant_documents q with
    | error e => rw [hd] at h; simp [Bind.bind, Except.bind] at h
    | ok docs =>
      rw [hd] at h
      simp [Bind.bind, Except.bind, Pure.pure, Except.pure] at h
      exact ⟨docs, rfl, h.2.symm, by rw [h.1]⟩

theorem init_ok_inv (env : InitEnv) (c : RagChain) (r : Retriever)
    (h : (initialize_rag_chain env).1 = (some c, some r)) :
    c.retriever = r ∧ r.k = 5 := by
  unfold initialize_rag_chain at h
  cases hok : (download_vectorstore_from_hf env env.fs).ok with
  | false => simp [hok] at h
  | true =>
    cases hemb : env.embeddings with
    | error e => simp [hok, hemb] at h
    | ok emb =>
      cases hch : env.chroma emb with
      | error e => simp [hok, hemb, hch] at h
      | ok vs =>
        cases hllm : env.chatOpenAI with
        | error e => simp [hok, hemb, hch, hllm] at h
        | ok f =>
          simp [hok, hemb, hch, hllm] at h
          obtain ⟨hc, hr⟩ := h
          subst hc; subst hr
          exact ⟨rfl, rfl⟩

/-- C6: a chunk whose metadata lacks `title` or `publish_time` gets the
defaults `Unknown Title` / `Unknown Date` substituted at summary
construction, instead of a failure or an omitted field. -/
theorem sourceSummary_metadata_defaults (d : Document) :
    (d.metadata.title = none →
      sourceSummary d =
        "**" ++ "Unknown Title" ++ "** ("
          ++ d.metadata.publish_time.getD "Unknown Date"
          ++ ")\n" ++ content_preview d.page_content) ∧
    (d.metadata.publish_time = none →
      sourceSummary d =
        "**" ++ d.metadata.title.getD "Unknown Title" ++ "** ("
          ++ "Unknown Date" ++ ")\n"
          ++ content_preview d.page_content) := by
  constructor <;> intro h <;> simp [sourceSummary, h]

/-- C6 witness: a concrete chunk with both metadata keys absent. -/
theorem sourceSummary_metadata_defaults_witness :
    sourceSummary
        { page_content := "Fever is a common symptom.",
          metadata := { title := none, publish_time := none } } =
      "**" ++ "Unknown Title" ++ "** ("
        ++ (none : Option String).getD "Unknown Date"
        ++ ")\n" ++ content_preview "Fever is a common symptom." :=
  (sourceSummary_metadata_defaults
    { page_content := "Fever is a common symptom.",
      metadata := { title := none, publish_time := none } }).1 rfl

/-- C7: when retrieval returns zero chunks, `answer` raises nothing:
generation runs on the empty context string and the source list is empty. -/
theorem answer_empty_retrieval (c : RagChain) (r : Retriever) (q a : String)
    (hcr : c.retriever = r)
    (hr : r.get_relevant_documents q = Except.ok [])
    (hl : c.llm.complete (ragPrompt "" q) = Except.ok a) :
    format_docs [] = "" ∧ answer c r q = Except.ok (a, []) := by
  refine ⟨rfl, ?_⟩
  have hinv : c.invoke q = Except.ok a := by
    unfold RagChain.invoke
    rw [hcr, hr]
    simpa [Bind.bind, Except.bind, format_docs, String.intercalate] using hl
  unfold answer
  rw [hinv, hr]
  simp [Bind.bind, Except.bind, Pure.pure, Except.pure]

/-- C7 witness: a stubbed empty index and a stubbed generator. -/
theorem answer_empty_retrieval_witness :
    format_docs [] = "" ∧
      answer
        { retriever := { vs := { rank := fun _ => Except.ok [] }, k := 5 },
          llm := { model_name := "gpt-3.5-turbo", temperature := 0,
                   complete := fun _ => Except.ok "I do not know." } }
        { vs := { rank := fun _ => Except.ok [] }, k := 5 }
        "What are symptoms?" = Except.ok ("I do not know.", []) :=
  answer_empty_retrieval
    { retriever := { vs := { rank := fun _ => Except.ok [] }, k := 5 },
      llm := { model_name := "gpt-3.5-turbo", temperature := 0,
               complete := fun _ => Except.ok "I do not know." } }
    { vs := { rank := fun _ => Except.ok [] }, k := 5 }
    "What are symptoms?" "I do not know." rfl rfl rfl

/-- C2: an exception anywhere inside the per-question try block is caught;
the turn is recorded as an Assistant message whose content is exactly
`Sorry, I encountered an error: ` followed by the cause, with no sources,
appended after the verbatim User turn — the handler still returns a log, so
the session survives. -/
theorem error_turn_confined (c : RagChain) (r : Retriever)
    (msgs : List Message) (q e : String)
    (h : answer c r q = Except.error e) :
    handleQuestion c r msgs q =
      msgs ++ [{ role := Role.user, content := q, sources := none },
               { role := Role.assistant,
                 content := "Sorry, I encountered an error: " ++ e,
                 sources := none }] := by
  simp [handleQuestion, h]

theorem content_preview_spec (s : String) :
    (content_preview s).length ≤ 203 ∧
    (s.length ≤ 200 → content_preview s = s) ∧
    (200 < s.length → content_preview s = s.take 200 ++ "...") := by
  by_cases h : s.length > 200
  · have hcp : content_preview s = s.take 200 ++ "..." := by
      unfold content_preview; rw [if_pos h]
    refine ⟨?_, fun hle => absurd h (by omega), fun _ => hcp⟩
    have h3 : ("..." : String).length = 3 := rfl
    rw [hcp, String.length_append, string_length_take, h3]
    omega
  · have hcp : content_preview s = s := by
      unfold content_preview; rw [if_neg h]
    have hle : s.length ≤ 200 := by omega
    exact ⟨by rw [hcp]; omega, fun _ => hcp, fun hlt => absurd hlt h⟩

/-- C1: a successful `answer` yields at most 5 summaries, one per retrieved
chunk, each being the title/date header line followed by the content
truncated to its first 200 characters with an ellipsis exactly when the
content exceeds 200 characters; the content part never exceeds 203
characters. -/
theorem answer_sources_format (env : InitEnv) (c : RagChain) (r : Retriever)
    (q resp : String) (sources : List String)
    (hinit : (initialize_rag_chain env).1 = (some c, some r))
    (hans : answer c r q = Except.ok (resp, sources)) :
    sources.length ≤ 5 ∧
    ∃ docs, r.get_relevant_documents q = Except.ok docs ∧
      sources = docs.map sourceSummary ∧
      ∀ d ∈ docs,
        sourceSummary d =
          "**" ++ d.metadata.title.getD "Unknown Title" ++ "** ("
            ++ d.metadata.publish_time.getD "Unknown Date" ++ ")\n"
            ++ content_preview d.page_content ∧
        (content_preview d.page_content).length ≤ 203 ∧
        (d.page_content.length ≤ 200 →
          content_preview d.page_content = d.page_content) ∧
        (200 < d.page_content.length →
          content_preview d.page_content = d.page_content.take 200 ++ "...") := by
  obtain ⟨docs, hdocs, hsrc, _⟩ := answer_ok_inv c r q resp sources hans
  obtain ⟨_, hk⟩ := init_ok_inv env c r hinit
  have hlen : docs.length ≤ 5 := by
    unfold Retriever.get_relevant_documents at hdocs
    cases hrank : r.vs.rank q with
    | error e => rw [hrank] at hdocs; simp [Except.map] at hdocs
    | ok l =>
      rw [hrank] at hdocs
      simp only [Except.map, Except.ok.injEq] at hdocs
      rw [← hdocs, hk]
      exact List.length_take_le 5 l
  refine ⟨?_, docs, hdocs, hsrc, ?_⟩
  · rw [hsrc, List.length_map]; exact hlen
  · intro d _
    exact ⟨rfl, content_preview_spec d.page_content⟩

/-- C1 witness: the successful pipeline of `envW` answering one question. -/
theorem answer_sources_format_witness :
    ([sourceSummary docW] : List String).length ≤ 5 ∧
    ∃ docs, retrieverW.get_relevant_documents "What are symptoms?"
        = Except.ok docs ∧
      [sourceSummary docW] = docs.map sourceSummary ∧
      ∀ d ∈ docs,
        sourceSummary d =
          "**" ++ d.metadata.title.getD "Unknown Title" ++ "** ("
            ++ d.metadata.publish_time.getD "Unknown Date" ++ ")\n"
            ++ content_preview d.page_content ∧
        (content_preview d.page_content).length ≤ 203 ∧
        (d.page_content.length ≤ 200 →
          content_preview d.page_content = d.page_content) ∧
        (200 < d.page_content.length →
          content_preview d.page_content = d.page_content.take 200 ++ "...") :=
  answer_sources_format envW chainW retrieverW "What are symptoms?"
    "Fever is common." [sourceSummary docW] rfl rfl

/-- C5: generation context and displayed sources come from two invocations
of the same deterministic retriever on the same question, so the chunks
summarised as sources are exactly the chunks whose contents, joined with a
blank-line separator in rank order, form the generation context. -/
theorem double_retrieval_consistent (env : InitEnv) (c : RagChain)
    (r : Retriever) (q resp : String) (sources : List String)
    (docs : List Document)
    (hinit : (initialize_rag_chain env).1 = (some c, some r))
    (hdocs : r.get_relevant_documents q = Except.ok docs)
    (hans : answer c r q = Except.ok (resp, sources)) :
    sources = docs.map sourceSummary ∧
    generationContext c q =
      Except.ok (String.intercalate "\n\n" (docs.map Document.page_content)) := by
  obtain ⟨docs2, hd2, hsrc, _⟩ := answer_ok_inv c r q resp sources hans
  obtain ⟨hcr, _⟩ := init_ok_inv env c r hinit
  have hdd : docs2 = docs := Except.ok.inj (hd2.symm.trans hdocs)
  subst hdd
  refine ⟨hsrc, ?_⟩
  unfold generationContext
  rw [hcr, hdocs]
  rfl

/-- C5 witness: the pipeline of `envW` on one question. -/
theorem double_retrieval_consistent_witness :
    [sourceSummary docW] = [docW].map sourceSummary ∧
    generationContext chainW "What are symptoms?" =
      Except.ok (String.intercalate "\n\n"
        ([docW].map Document.page_content)) :=
  double_retrieval_consistent envW chainW retrieverW "What are symptoms?"
    "Fever is common." [sourceSummary docW] [docW] rfl rfl rfl

/-- C3: the cached `initialize_rag_chain` is idempotent within one process:
starting from a fresh cache, a second call returns the value of the first
and leaves the cache untouched, and the body has run exactly once. -/
theorem cachedInit_idempotent (env : InitEnv) :
    (cachedInit env (cachedInit env freshCache).1).2
        = (cachedInit env freshCache).2 ∧
    (cachedInit env (cachedInit env freshCache).1).1
        = (cachedInit env freshCache).1 ∧
    (cachedInit env (cachedInit env freshCache).1).1.runs = 1 := by
  simp [cachedInit, freshCache]

/-- C2 witness: a stubbed generation function that raises. -/
theorem error_turn_confined_witness :
    handleQuestion
        { retriever := { vs := { rank := fun _ => Except.ok [] }, k := 5 },
          llm := { model_name := "gpt-3.5-turbo", temperature := 0,
                   complete := fun _ => Except.error "rate limited" } }
        { vs := { rank := fun _ => Except.ok [] }, k := 5 }
        [] "What are symptoms?" =
      [{ role := Role.user, content := "What are symptoms?", sources := none },
       { role := Role.assistant,
         content := "Sorry, I encountered an error: " ++ "rate limited",
         sources := none }] :=
  error_turn_confined
    { retriever := { vs := { rank := fun _ => Except.ok [] }, k := 5 },
      llm := { model_name := "gpt-3.5-turbo", temperature := 0,
               complete := fun _ => Except.error "rate limited" } }
    { vs := { rank := fun _ => Except.ok [] }, k := 5 }
    [] "What are symptoms?" "rate limited" rfl

/-- C9: clearing the chat history empties the rendered log regardless of
its prior length and leaves the cached pipeline handle untouched, so the
guarded initialisation step of the next rerun does not reconstruct the
pipeline. -/
theorem clearChatHistory_frame (s : SessionState) :
    renderSession (clearChatHistory s) = [] ∧
    (clearChatHistory s).rag_chain = s.rag_chain ∧
    (clearChatHistory s).retriever = s.retriever ∧
    (∀ env cache c, s.rag_chain = some c →
      ensureRagChain env cache (clearChatHistory s)
        = (cache, clearChatHistory s)) := by
  refine ⟨rfl, rfl, rfl, ?_⟩
  intro env cache c hc
  simp [ensureRagChain, clearChatHistory, hc]

/-- C9 witness: clearing a session that holds a constructed handle; the
next guarded initialisation step is the identity. -/
theorem clearChatHistory_frame_witness :
    ensureRagChain envW freshCache (clearChatHistory sessionW)
      = (freshCache, clearChatHistory sessionW) :=
  (clearChatHistory_frame sessionW).2.2.2 envW freshCache chainW rfl

theorem exchangePair_shape (c : RagChain) (r : Retriever) (q : String) :
    ∃ a, exchangePair c r q =
        [{ role := Role.user, content := q, sources := none }, a] ∧
      a.role = Role.assistant := by
  unfold exchangePair
  cases answer c r q with
  | ok p => cases p; exact ⟨_, rfl, rfl⟩
  | error e => exact ⟨_, rfl, rfl⟩

theorem handleQuestion_eq_exchangePair (c : RagChain) (r : Retriever)
    (msgs : List Message) (q : String) :
    handleQuestion c r msgs q = msgs ++ exchangePair c r q := by
  unfold handleQuestion exchangePair
  cases answer c r q with
  | ok p => cases p; simp
  | error e => simp

theorem foldl_handleQuestion_eq (c : RagChain) (r : Retriever)
    (qs : List String) :
    ∀ msgs : List Message,
      qs.foldl (handleQuestion c r) msgs
        = msgs ++ (qs.map (exchangePair c r)).flatten := by
  induction qs with
  | nil => intro msgs; simp
  | cons q qs ih =>
      intro msgs
      simp only [List.foldl, List.map, List.flatten_cons]
      rw [handleQuestion_eq_exchangePair, ih, List.append_assoc]

theorem userAssistantPairs_flatten (c : RagChain) (r : Retriever)
    (qs : List String) :
    userAssistantPairs ((qs.map (exchangePair c r)).flatten) = true ∧
    ((qs.map (exchangePair c r)).flatten).length = 2 * qs.length := by
  induction qs with
  | nil => exact ⟨rfl, rfl⟩
  | cons q qs ih =>
      obtain ⟨a, hp, ha⟩ := exchangePair_shape c r q
      simp only [List.map, List.flatten_cons, hp, List.cons_append,
        List.nil_append, List.length_cons]
      constructor
      · simp [userAssistantPairs, Role.isUser, ha, Role.isAssistant, ih.1]
      · have hlen := ih.2
        omega

/-- C10: every submitted question appends exactly the verbatim User turn
followed by one Assistant turn; hence, from an empty session and absent
clears, the log is a sequence of (User, Assistant) pairs of even length
2 x (number of questions). -/
theorem chat_log_invariant (c : RagChain) (r : Retriever) :
    (∀ (msgs : List Message) (q : String), ∃ a,
      handleQuestion c r msgs q =
        msgs ++ [{ role := Role.user, content := q, sources := none }, a] ∧
      a.role = Role.assistant) ∧
    (∀ qs : List String,
      userAssistantPairs (qs.foldl (handleQuestion c r) []) = true ∧
      (qs.foldl (handleQuestion c r) []).length = 2 * qs.length) := by
  constructor
  · intro msgs q
    obtain ⟨a, hp, ha⟩ := exchangePair_shape c r q
    exact ⟨a, by rw [handleQuestion_eq_exchangePair, hp], ha⟩
  · intro qs
    rw [foldl_handleQuestion_eq]
    simpa using userAssistantPairs_flatten c r qs

theorem download_false_has_error (env : InitEnv) (fs : FS) :
    (download_vectorstore_from_hf env fs).ok = false →
    (download_vectorstore_from_hf env fs).errors ≠ [] := by
  unfold download_vectorstore_from_hf
  by_cases h1 : dirNonEmpty fs.chroma
  · simp [h1]
  · by_cases h2 : env.hf_dataset_id = PLACEHOLDER_DATASET_ID
    · simp [h1, h2]
    · cases hs : env.snapshot with
      | error e => simp [h1, h2, hs]
      | ok vs => cases vs <;> simp [h1, h2, hs]

/-- C4: whenever provisioning reports failure or any constructor raises
(missing credential surfaces as the embeddings constructor raising),
`initialize_rag_chain` returns no pipeline component at all — never a
partial pipeline — and at least one human-readable error message was
displayed instead of an uncaught exception escaping. -/
theorem init_all_or_nothing (env : InitEnv)
    (h : (download_vectorstore_from_hf env env.fs).ok = false ∨
         isErr env.embeddings = true ∨
         (∃ emb, env.embeddings = Except.ok emb ∧
            isErr (env.chroma emb) = true) ∨
         isErr env.chatOpenAI = true) :
    (initialize_rag_chain env).1 = (none, none) ∧
    (initialize_rag_chain env).2 ≠ [] := by
  by_cases hok : (download_vectorstore_from_hf env env.fs).ok
  · have hcases : isErr env.embeddings = true ∨
        (∃ emb, env.embeddings = Except.ok emb ∧
          isErr (env.chroma emb) = true) ∨
        isErr env.chatOpenAI = true := by
      rcases h with hdl | rest
      · rw [hok] at hdl; exact absurd hdl (by simp)
      · exact rest
    unfold initialize_rag_chain
    cases hemb : env.embeddings with
    | error e => simp [hok, hemb]
    | ok emb =>
      cases hch : env.chroma emb with
      | error e => simp [hok, hemb, hch]
      | ok vs =>
        cases hllm : env.chatOpenAI with
        | error e => simp [hok, hemb, hch, hllm]
        | ok f =>
          exfalso
          rcases hcases with hc1 | ⟨emb2, hc2, hc3⟩ | hc4
          · rw [hemb] at hc1; simp [isErr] at hc1
          · rw [hemb] at hc2
            cases Except.ok.inj hc2
            rw [hch] at hc3; simp [isErr] at hc3
          · rw [hllm] at hc4; simp [isErr] at hc4
  · have hfalse : (download_vectorstore_from_hf env env.fs).ok = false := by
      simpa using hok
    have herr := download_false_has_error env env.fs hfalse
    unfold initialize_rag_chain
    simp [hfalse, herr]

/-- C4 witness: the placeholder dataset id with no local index. -/
theorem init_all_or_nothing_witness :
    (initialize_rag_chain envFail).1 = (none, none) ∧
    (initialize_rag_chain envFail).2 ≠ [] :=
  init_all_or_nothing envFail (Or.inl rfl)

/-- C8 counterexample: with no local index, a real dataset id, and a
`snapshot_download` call that completes without raising but materialises no
`vectorstore` directory, `download_vectorstore_from_hf` returns `True`
although the local index directory is still absent. -/
theorem download_true_without_index :
    (download_vectorstore_from_hf envDL envDL.fs).ok = true ∧
    (download_vectorstore_from_hf envDL envDL.fs).fs.chroma = none ∧
    dirNonEmpty (download_vectorstore_from_hf envDL envDL.fs).fs.chroma
      = false :=
  ⟨rfl, rfl, rfl⟩

/-- C8 amended: the function returns true iff a non-empty index directory
already existed or (the dataset id is not the placeholder and the download
call completed without raising); a false return leaves the filesystem
untouched with the index directory absent or empty; and after a true
return the index directory is non-empty unless the completed download
materialised no files. -/
theorem download_contract (env : InitEnv) (fs : FS) :
    ((download_vectorstore_from_hf env fs).ok = true ↔
      (dirNonEmpty fs.chroma = true ∨
        (env.hf_dataset_id ≠ PLACEHOLDER_DATASET_ID ∧
          ∃ v, env.snapshot = Except.ok v))) ∧
    ((download_vectorstore_from_hf env fs).ok = false →
      (download_vectorstore_from_hf env fs).fs = fs ∧
      dirNonEmpty (download_vectorstore_from_hf env fs).fs.chroma = false) ∧
    ((download_vectorstore_from_hf env fs).ok = true →
      dirNonEmpty (download_vectorstore_from_hf env fs).fs.chroma = true ∨
      ∃ v, env.snapshot = Except.ok v ∧ dirNonEmpty v = false) := by
  by_cases h1 : dirNonEmpty fs.chroma = true
  · have hd : download_vectorstore_from_hf env fs =
        { fs := fs, ok := true, errors := [] } := by
      unfold download_vectorstore_from_hf; rw [if_pos h1]
    rw [hd]
    exact ⟨⟨fun _ => Or.inl h1, fun _ => rfl⟩,
           fun hf => absurd hf (by simp),
           fun _ => Or.inl h1⟩
  · by_cases h2 : env.hf_dataset_id = PLACEHOLDER_DATASET_ID
    · have hd : download_vectorstore_from_hf env fs =
          { fs := fs, ok := false,
            errors := ["❌ Please update HF_DATASET_ID in app.py with your actual Hugging Face dataset ID"] } := by
        unfold download_vectorstore_from_hf; rw [if_neg h1, if_pos h2]
      rw [hd]
      refine ⟨⟨fun hf => absurd hf (by simp), fun hor => ?_⟩,
              fun _ => ⟨rfl, by simpa using h1⟩,
              fun hf => absurd hf (by simp)⟩
      rcases hor with hh | ⟨hne, _⟩
      · exact absurd hh h1
      · exact absurd h2 hne
    · cases hs : env.snapshot with
      | error e =>
        have hd : download_vectorstore_from_hf env fs =
            { fs := fs, ok := false,
              errors := ["❌ Error downloading vectorstore: " ++ e] } := by
          unfold download_vectorstore_from_hf; rw [if_neg h1, if_neg h2, hs]
        rw [hd]
        refine ⟨⟨fun hf => absurd hf (by simp), fun hor => ?_⟩,
                fun _ => ⟨rfl, by simpa using h1⟩,
                fun hf => absurd hf (by simp)⟩
        rcases hor with hh | ⟨_, v, hv⟩
        · exact absurd hh h1
        · exact Except.noConfusion hv
      | ok vs =>
        cases vs with
        | none =>
          have hd : download_vectorstore_from_hf env fs =
              { fs := { chroma := fs.chroma, vectorstore := none },
                ok := true, errors := [] } := by
            unfold download_vectorstore_from_hf
            rw [if_neg h1, if_neg h2, hs]
          rw [hd]
          exact ⟨⟨fun _ => Or.inr ⟨h2, none, rfl⟩, fun _ => rfl⟩,
                 fun hf => absurd hf (by simp),
                 fun _ => Or.inr ⟨none, rfl, rfl⟩⟩
        | some n =>
          have hd : download_vectorstore_from_hf env fs =
              { fs := { chroma := some n, vectorstore := none },
                ok := true, errors := [] } := by
            unfold download_vectorstore_from_hf
            rw [if_neg h1, if_neg h2, hs]
          rw [hd]
          refine ⟨⟨fun _ => Or.inr ⟨h2, some n, rfl⟩, fun _ => rfl⟩,
                  fun hf => absurd hf (by simp), fun _ => ?_⟩
          by_cases hn : 0 < n
          · left; simp [dirNonEmpty, hn]
          · right; exact ⟨some n, rfl, by simp [dirNonEmpty, hn]⟩

/-- C8 amended witness: a non-empty index directory already exists, so the
call reports success. -/
theorem download_contract_witness :
    (download_vectorstore_from_hf envW envW.fs).ok = true :=
  (download_contract envW envW.fs).1.mpr (Or.inl rfl)
